import Mathlib

/-!
Verification of the portfolio site client-side controller script
(assets/js/script.js) against its design specification.

The script is a flat collection of DOM event wiring routines. Each
controller is embedded shallowly: DOM element class lists and attributes
become Boolean flags and strings on explicit state records, NodeList
query results become lists, and each event handler becomes a pure state
transition function translated statement by statement from the source.
Timer-deferred work (setTimeout, debounce) is modelled by the state
reached once the deferred callbacks have fired; handlers that can throw
a TypeError on a null element dereference are modelled in Except.
-/

namespace Portfolio

/-! ## Navigation Controller (script.js lines 347 to 415) -/

/-- JavaScript string capitalization as written at line 366:
pageName.charAt(0).toUpperCase() + pageName.slice(1).
On the empty string both parts are empty. -/
def jsCapitalize (s : String) : String :=
  match s.data with
  | [] => ""
  | c :: cs => String.mk (c.toUpper :: cs)

/-- A page container element carrying a data-page name and the
presence of the CSS class named active. -/
structure PageEl where
  name : String
  active : Bool
deriving DecidableEq, Repr

/-- A navigation link element: its innerHTML label and the presence of
the class named active. -/
structure NavLinkEl where
  label : String
  active : Bool
deriving DecidableEq, Repr

/-- The DOM state the Navigation Controller reads and writes: the
NodeList of data-page elements, the NodeList of data-nav-link elements,
and document.title. -/
structure NavState where
  pages : List PageEl
  links : List NavLinkEl
  title : String
deriving DecidableEq, Repr

/-- navigateToPage (lines 354 to 381): for each page element, adds the
class active when pageName equals its data-page (also updating
document.title for such a page) and removes it otherwise; then for each
navigation link, adds active when its lowercased innerHTML equals
pageName and removes it otherwise. -/
def navigateToPage (pageName : String) (s : NavState) : NavState :=
  { pages := s.pages.map (fun page =>
      if pageName = page.name then { page with active := true }
      else { page with active := false }),
    links := s.links.map (fun link =>
      if link.label.toLower = pageName then { link with active := true }
      else { link with active := false }),
    title := if s.pages.any (fun page => pageName = page.name)
      then jsCapitalize pageName ++ " - Portfolio"
      else s.title }

/-- The popstate handler (lines 398 to 405): hash is the location
fragment without the leading hash mark; a non-empty hash is routed
directly, an empty one routes to about. -/
def popstateHandler (hash : String) (s : NavState) : NavState :=
  if hash = "" then navigateToPage "about" s
  else navigateToPage hash s

/-- initializePage (lines 408 to 415): routes to the fragment only when
it is non-empty and some element with that data-page value exists,
otherwise to about. -/
def initializePage (hash : String) (s : NavState) : NavState :=
  if hash = "" then navigateToPage "about" s
  else if s.pages.any (fun page => page.name = hash) then navigateToPage hash s
  else navigateToPage "about" s

/-- A concrete navigation state with the known page set about and
resume, used to evaluate the routing functions on concrete fragments. -/
def demoNav : NavState :=
  { pages := [⟨"about", true⟩, ⟨"resume", false⟩],
    links := [⟨"About", true⟩, ⟨"Resume", false⟩],
    title := "About - Portfolio" }

/-- If no page element is named n, every page is inactive after
navigateToPage n. -/
theorem navigateToPage_unknown_all_inactive (n : String) (s : NavState)
    (h : ∀ p ∈ s.pages, p.name ≠ n) :
    ∀ p ∈ (navigateToPage n s).pages, p.active = false := by
  intro p hp
  simp only [navigateToPage, List.mem_map] at hp
  obtain ⟨q, hq, rfl⟩ := hp
  have : ¬ n = q.name := fun hc => h q hq (hc.symm)
  simp [this]

/-- Helper: mapping the navigateToPage page update over a list in which
no element is named n produces no active element, so the filter of
active elements is empty. -/
theorem filter_active_nil_of_not_mem (n : String) (ps : List PageEl)
    (h : ∀ p ∈ ps, p.name ≠ n) :
    (ps.map (fun page =>
        if n = page.name then { page with active := true }
        else { page with active := false })).filter (fun p => p.active) = [] := by
  induction ps with
  | nil => rfl
  | cons p ps ih =>
    have hp : ¬ n = p.name := fun hc => h p (List.mem_cons_self p ps) hc.symm
    simp only [List.map_cons, List.filter_cons]
    rw [if_neg hp]
    simp only [if_neg]
    exact ih (fun q hq => h q (List.mem_cons_of_mem p hq))

/-- Helper: with pairwise distinct page names and n among them, the
active pages after the navigateToPage update are exactly one, named
n. -/
theorem filter_active_eq_single (n : String) (ps : List PageEl)
    (hnd : (ps.map (fun p => p.name)).Nodup)
    (hm : n ∈ ps.map (fun p => p.name)) :
    ((ps.map (fun page =>
        if n = page.name then { page with active := true }
        else { page with active := false })).filter (fun p => p.active)).map
          (fun p => p.name) = [n] := by
  induction ps with
  | nil => simp at hm
  | cons p ps ih =>
    simp only [List.map_cons, List.nodup_cons] at hnd
    rw [List.map_cons] at hm
    rcases List.mem_cons.mp hm with h1 | h2
    · subst h1
      simp only [List.map_cons, List.filter_cons, if_pos rfl]
      have hrest : (ps.map (fun page =>
          if p.name = page.name then { page with active := true }
          else { page with active := false })).filter (fun q => q.active) = [] := by
        apply filter_active_nil_of_not_mem
        intro q hq hc
        exact hnd.1 (hc ▸ List.mem_map_of_mem (fun r => r.name) hq)
      simp [hrest]
    · have hne : ¬ n = p.name := by
        intro hc
        exact hnd.1 (hc ▸ h2)
      simp only [List.map_cons, List.filter_cons, if_neg hne]
      simpa using ih hnd.2 h2

/-- C1 as stated is refuted here: on browser back and forward
navigation with the non-empty unknown fragment xyz, the popstate
handler does not activate the default page about; it routes
navigateToPage directly at the unknown name, which removes the class
active from every page, about included, and activates nothing. The
known page set of the concrete state contains about and not xyz. -/
theorem popstate_unknown_counterexample :
    (demoNav.pages.any (fun p => p.name = "about") = true
      ∧ demoNav.pages.any (fun p => p.name = "xyz") = false)
    ∧ (popstateHandler "xyz" demoNav).pages.filter (fun p => p.active) = [] := by
  decide

/-- C1 amended: for a fragment naming no known page, initializePage
activates the default page about, and the popstate handler does so only
for the empty fragment; for a non-empty unknown fragment the popstate
handler instead leaves every page inactive. -/
theorem routing_unknown_fallback (s : NavState) (hash : String)
    (h : ∀ p ∈ s.pages, p.name ≠ hash) :
    initializePage hash s = navigateToPage "about" s
    ∧ popstateHandler "" s = navigateToPage "about" s
    ∧ (hash ≠ "" → ∀ p ∈ (popstateHandler hash s).pages, p.active = false) := by
  refine ⟨?_, by simp [popstateHandler], ?_⟩
  · by_cases he : hash = ""
    · simp [initializePage, he]
    · have hany : s.pages.any (fun page => page.name = hash) = false := by
        simp only [List.any_eq_false, decide_eq_true_eq]
        intro p hp
        exact h p hp
      simp [initializePage, he, hany]
  · intro hne
    have : popstateHandler hash s = navigateToPage hash s := by
      simp [popstateHandler, hne]
    rw [this]
    exact navigateToPage_unknown_all_inactive hash s h

/-- Witness for routing_unknown_fallback at the concrete state demoNav
and the unknown fragment xyz. -/
theorem routing_unknown_fallback_witness :
    initializePage "xyz" demoNav = navigateToPage "about" demoNav
    ∧ popstateHandler "" demoNav = navigateToPage "about" demoNav
    ∧ ("xyz" ≠ "" → ∀ p ∈ (popstateHandler "xyz" demoNav).pages, p.active = false) :=
  routing_unknown_fallback demoNav "xyz" (by decide)

/-- C2: for a known page name over pairwise distinct page names,
navigateToPage leaves exactly one page active, the one whose data-page
equals the requested name; a link is active exactly when its lowercased
label equals the name; and the document title contains the capitalized
page name. -/
theorem navigateToPage_known_spec (s : NavState) (pageName : String)
    (hm : pageName ∈ s.pages.map (fun p => p.name))
    (hnd : (s.pages.map (fun p => p.name)).Nodup) :
    (((navigateToPage pageName s).pages.filter (fun p => p.active)).map
        (fun p => p.name) = [pageName])
    ∧ (∀ p ∈ (navigateToPage pageName s).pages, p.active = true ↔ p.name = pageName)
    ∧ (∀ l ∈ (navigateToPage pageName s).links,
        l.active = true ↔ l.label.toLower = pageName)
    ∧ (∃ rest, (navigateToPage pageName s).title = jsCapitalize pageName ++ rest) := by
  refine ⟨filter_active_eq_single pageName s.pages hnd hm, ?_, ?_, ?_⟩
  · intro p hp
    simp only [navigateToPage, List.mem_map] at hp
    obtain ⟨q, _, rfl⟩ := hp
    by_cases hq : pageName = q.name
    · simp [hq]
    · simp only [if_neg hq]
      simp only [Bool.false_eq_true, false_iff]
      intro hc
      exact hq hc.symm
  · intro l hl
    simp only [navigateToPage, List.mem_map] at hl
    obtain ⟨q, _, rfl⟩ := hl
    by_cases hq : q.label.toLower = pageName
    · simp [hq]
    · simp only [if_neg hq]
      simp only [Bool.false_eq_true, false_iff]
      exact hq
  · have hany : s.pages.any (fun page => pageName = page.name) = true := by
      simp only [List.any_eq_true, decide_eq_true_eq]
      obtain ⟨q, hq, hqe⟩ := List.mem_map.mp hm
      exact ⟨q, hq, hqe.symm⟩
    exact ⟨" - Portfolio", by simp [navigateToPage, hany]⟩

/-- Witness for navigateToPage_known_spec: navigating demoNav to resume
satisfies every conjunct at this concrete input. -/
theorem navigateToPage_known_spec_witness :
    (((navigateToPage "resume" demoNav).pages.filter (fun p => p.active)).map
        (fun p => p.name) = ["resume"])
    ∧ (∀ p ∈ (navigateToPage "resume" demoNav).pages,
        p.active = true ↔ p.name = "resume")
    ∧ (∀ l ∈ (navigateToPage "resume" demoNav).links,
        l.active = true ↔ l.label.toLower = "resume")
    ∧ (∃ rest, (navigateToPage "resume" demoNav).title =
        jsCapitalize "resume" ++ rest) :=
  navigateToPage_known_spec demoNav "resume" (by decide) (by decide)

/-! ## Portfolio Filter Controller (script.js lines 189 to 259) -/

/-- A data-filter-item element: its data-category attribute, absent
when the markup omits it, and the presence of the class named active
that makes it visible. -/
structure FilterItem where
  category : Option String
  active : Bool
deriving DecidableEq, Repr

/-- filterFunc (lines 204 to 217): an item whose category matches the
selected value, or any item when the selected value is all, receives
the class active after a staggered setTimeout delay; every other item
has it removed at once. The state modelled here is the one reached
after all deferred timeouts have fired, since the delay is cosmetic. -/
def filterFunc (selectedValue : String) (items : List FilterItem) : List FilterItem :=
  items.map (fun item =>
    if selectedValue = "all" ∨ item.category = some selectedValue
    then { item with active := true }
    else { item with active := false })

/-- A data-filter-btn element of the desktop button row: its innerText
label and the presence of the class named active that marks it as the
displayed current selection. -/
structure FilterBtn where
  label : String
  active : Bool
deriving DecidableEq, Repr

/-- The DOM state the filter controller reads and writes: the open
state of the custom dropdown, the innerText of the data-select-value
display, the desktop button row with the index of the last clicked
button, and the filterable items. -/
structure FilterUI where
  selectOpen : Bool
  selectValueText : String
  buttons : List FilterBtn
  lastClicked : Option Nat
  items : List FilterItem
deriving DecidableEq, Repr

/-- Replace the element at an index of a list, leaving the list
unchanged when the index is out of range. -/
def setAt (l : List FilterBtn) (i : Nat) (f : FilterBtn → FilterBtn) : List FilterBtn :=
  match l, i with
  | [], _ => []
  | b :: rest, 0 => f b :: rest
  | b :: rest, Nat.succ j => b :: setAt rest j f

/-- The dropdown select-item click handler (lines 220 to 231): writes
the clicked innerText into the data-select-value display, toggles the
dropdown open state, and filters with the lowercased text. The desktop
button row is not touched. -/
def selectItemClick (label : String) (s : FilterUI) : FilterUI :=
  { s with selectValueText := label,
           selectOpen := !s.selectOpen,
           items := filterFunc label.toLower s.items }

/-- The desktop filter button click handler (lines 236 to 251): writes
the clicked innerText into the data-select-value display, filters with
the lowercased text, removes the class active from the last clicked
button, adds it to the clicked one and records it as last clicked. -/
def filterBtnClick (i : Nat) (s : FilterUI) : FilterUI :=
  match s.buttons[i]? with
  | none => s
  | some b =>
    let cleared := match s.lastClicked with
      | some j => setAt s.buttons j (fun x => { x with active := false })
      | none => s.buttons
    { s with selectValueText := b.label,
             items := filterFunc b.label.toLower s.items,
             buttons := setAt cleared i (fun x => { x with active := true }),
             lastClicked := some i }

/-- C3: after the staggered reveals complete, selecting all makes every
tagged item visible whatever its category, and selecting a specific
tag makes visible exactly the items whose category equals that tag,
hiding all others. -/
theorem filterFunc_spec (sel : String) (items : List FilterItem) :
    (sel = "all" → ∀ it ∈ filterFunc sel items, it.active = true)
    ∧ (sel ≠ "all" → ∀ it ∈ filterFunc sel items,
        it.active = true ↔ it.category = some sel) := by
  constructor
  · intro hall it hit
    simp only [filterFunc, List.mem_map] at hit
    obtain ⟨q, _, rfl⟩ := hit
    simp [hall]
  · intro hne it hit
    simp only [filterFunc, List.mem_map] at hit
    obtain ⟨q, _, rfl⟩ := hit
    by_cases hq : q.category = some sel
    · simp [hq]
    · have : ¬ (sel = "all" ∨ q.category = some sel) := by
        intro hc
        rcases hc with hc | hc
        · exact hne hc
        · exact hq hc
      simp only [if_neg this]
      simp only [Bool.false_eq_true, false_iff]
      exact hq

/-- A concrete filter UI state: the button for all is highlighted, both
dropdown and button row display all, and two categorized items are
visible. -/
def demoUI : FilterUI :=
  { selectOpen := false,
    selectValueText := "All",
    buttons := [⟨"All", true⟩, ⟨"Web design", false⟩],
    lastClicked := some 0,
    items := [⟨some "web design", true⟩, ⟨some "applications", true⟩] }

/-- Witness for filterFunc_spec at the concrete item list of demoUI and
the selection web design. -/
theorem filterFunc_spec_witness :
    ("web design" = "all" → ∀ it ∈ filterFunc "web design" demoUI.items,
        it.active = true)
    ∧ ("web design" ≠ "all" → ∀ it ∈ filterFunc "web design" demoUI.items,
        it.active = true ↔ it.category = some "web design") :=
  filterFunc_spec "web design" demoUI.items

/-- C6 as stated is refuted here: selecting web design through the
dropdown filters the items and updates the dropdown display, yet
leaves the desktop button row unchanged, so the button labelled All
still carries the class active and the two inputs now display
different current values. -/
theorem selectItemClick_counterexample :
    (selectItemClick "Web design" demoUI).selectValueText = "Web design"
    ∧ (selectItemClick "Web design" demoUI).buttons = demoUI.buttons
    ∧ demoUI.buttons = [⟨"All", true⟩, ⟨"Web design", false⟩] := by
  decide

/-- C6 amended: both selection inputs invoke the identical filtering
operation, filterFunc on the lowercased clicked label; a desktop button
click updates the dropdown display to its label and moves the button
highlight, but a dropdown selection leaves the desktop button row
unchanged, so only the button-to-dropdown direction stays consistent. -/
theorem filter_inputs_spec (s : FilterUI) (label : String) (i : Nat)
    (b : FilterBtn) (hb : s.buttons[i]? = some b) :
    (selectItemClick label s).items = filterFunc label.toLower s.items
    ∧ (filterBtnClick i s).items = filterFunc b.label.toLower s.items
    ∧ (filterBtnClick i s).selectValueText = b.label
    ∧ (selectItemClick label s).selectValueText = label
    ∧ (selectItemClick label s).buttons = s.buttons := by
  refine ⟨rfl, ?_, ?_, rfl, rfl⟩
  · simp [filterBtnClick, hb]
  · simp [filterBtnClick, hb]

/-- Witness for filter_inputs_spec at the concrete state demoUI,
clicking button index 1 labelled Web design. -/
theorem filter_inputs_spec_witness :
    (selectItemClick "Web design" demoUI).items =
        filterFunc "Web design".toLower demoUI.items
    ∧ (filterBtnClick 1 demoUI).items =
        filterFunc (FilterBtn.label ⟨"Web design", false⟩).toLower demoUI.items
    ∧ (filterBtnClick 1 demoUI).selectValueText =
        FilterBtn.label ⟨"Web design", false⟩
    ∧ (selectItemClick "Web design" demoUI).selectValueText = "Web design"
    ∧ (selectItemClick "Web design" demoUI).buttons = demoUI.buttons :=
  filter_inputs_spec demoUI "Web design" 1 ⟨"Web design", false⟩ (by decide)

/-! ## Testimonials Modal Controller (script.js lines 124 to 183) -/

/-- A data-testimonials-item element and the three sub-elements the
click handler reads from it: the avatar image (src and alt), the title
markup and the body markup. Each sub-element may be absent, in which
case the corresponding copy at lines 157 to 168 is skipped by its
guard. -/
structure TItem where
  avatar : Option (String × String)
  title : Option String
  text : Option String
deriving DecidableEq, Repr

/-- The DOM state the modal controller reads and writes: the modal
display fields, the class active on the data-modal-container element,
the class active on the data-overlay element, and the class no-scroll
on the document body. -/
structure ModalState where
  imgSrc : String
  imgAlt : String
  titleHtml : String
  textHtml : String
  containerActive : Bool
  overlayActive : Bool
  noScroll : Bool
deriving DecidableEq, Repr

/-- testimonialsModalFunc (lines 137 to 148): toggles the class active
on the modal container and on the overlay and the class no-scroll on
the body, all in one synchronous body. -/
def testimonialsModalFunc (s : ModalState) : ModalState :=
  { s with containerActive := !s.containerActive,
           overlayActive := !s.overlayActive,
           noScroll := !s.noScroll }

/-- The field copies of the testimonial click handler (lines 153 to
168): each of the three sub-elements that is present overwrites the
matching modal fields; an absent one leaves them as they were. -/
def setModalContent (item : TItem) (s : ModalState) : ModalState :=
  let s1 := match item.avatar with
    | some av => { s with imgSrc := av.1, imgAlt := av.2 }
    | none => s
  let s2 := match item.title with
    | some t => { s1 with titleHtml := t }
    | none => s1
  match item.text with
  | some t => { s2 with textHtml := t }
  | none => s2

/-- The full testimonial item click handler (lines 151 to 172): copies
the fields, then calls testimonialsModalFunc. -/
def testimonialClick (item : TItem) (s : ModalState) : ModalState :=
  testimonialsModalFunc (setModalContent item s)

/-- The field copies never touch the three visibility flags. -/
theorem setModalContent_flags (item : TItem) (s : ModalState) :
    (setModalContent item s).containerActive = s.containerActive
    ∧ (setModalContent item s).overlayActive = s.overlayActive
    ∧ (setModalContent item s).noScroll = s.noScroll := by
  unfold setModalContent
  rcases item.avatar with _ | av <;> rcases item.title with _ | t <;>
    rcases item.text with _ | x <;> exact ⟨rfl, rfl, rfl⟩

/-- When every sub-element of an item is present, the field copies set
exactly that item's content. -/
theorem setModalContent_fields (item : TItem) (s : ModalState)
    (src alt t x : String) (h1 : item.avatar = some (src, alt))
    (h2 : item.title = some t) (h3 : item.text = some x) :
    (setModalContent item s).imgSrc = src
    ∧ (setModalContent item s).imgAlt = alt
    ∧ (setModalContent item s).titleHtml = t
    ∧ (setModalContent item s).textHtml = x := by
  unfold setModalContent
  rw [h1, h2, h3]
  exact ⟨rfl, rfl, rfl, rfl⟩

/-- C4: opening the modal on item a and then on item b, where b has all
three sub-elements, displays exactly the content of b in every field,
whatever item a carried; and on each open the fields are written by
setModalContent strictly before testimonialsModalFunc flips the
visibility flags, so the state handed to the visibility toggle already
holds the full content of b. -/
theorem modal_last_write_wins (s : ModalState) (a b : TItem)
    (src alt t x : String) (h1 : b.avatar = some (src, alt))
    (h2 : b.title = some t) (h3 : b.text = some x) :
    ((testimonialClick b (testimonialClick a s)).imgSrc = src
      ∧ (testimonialClick b (testimonialClick a s)).imgAlt = alt
      ∧ (testimonialClick b (testimonialClick a s)).titleHtml = t
      ∧ (testimonialClick b (testimonialClick a s)).textHtml = x)
    ∧ (∀ m : ModalState,
        testimonialClick b m = testimonialsModalFunc (setModalContent b m)
        ∧ (setModalContent b m).imgSrc = src
        ∧ (setModalContent b m).containerActive = m.containerActive) := by
  constructor
  · have hf := setModalContent_fields b (testimonialClick a s) src alt t x h1 h2 h3
    exact ⟨hf.1, hf.2.1, hf.2.2.1, hf.2.2.2⟩
  · intro m
    exact ⟨rfl, (setModalContent_fields b m src alt t x h1 h2 h3).1,
      (setModalContent_flags b m).1⟩

/-- A concrete modal state used to evaluate the handlers. -/
def demoModal : ModalState :=
  { imgSrc := "avatar-0.png", imgAlt := "Zero", titleHtml := "Zero",
    textHtml := "old text", containerActive := false,
    overlayActive := false, noScroll := false }

/-- Witness for modal_last_write_wins: opening on a first item and then
on a second concrete item shows exactly the second item's content. -/
theorem modal_last_write_wins_witness :
    ((testimonialClick ⟨some ("b.png", "Bea"), some "Bea", some "fine work"⟩
        (testimonialClick ⟨some ("a.png", "Abe"), some "Abe", some "great"⟩
          demoModal)).imgSrc = "b.png"
      ∧ (testimonialClick ⟨some ("b.png", "Bea"), some "Bea", some "fine work"⟩
          (testimonialClick ⟨some ("a.png", "Abe"), some "Abe", some "great"⟩
            demoModal)).imgAlt = "Bea"
      ∧ (testimonialClick ⟨some ("b.png", "Bea"), some "Bea", some "fine work"⟩
          (testimonialClick ⟨some ("a.png", "Abe"), some "Abe", some "great"⟩
            demoModal)).titleHtml = "Bea"
      ∧ (testimonialClick ⟨some ("b.png", "Bea"), some "Bea", some "fine work"⟩
          (testimonialClick ⟨some ("a.png", "Abe"), some "Abe", some "great"⟩
            demoModal)).textHtml = "fine work")
    ∧ (∀ m : ModalState,
        testimonialClick ⟨some ("b.png", "Bea"), some "Bea", some "fine work"⟩ m
          = testimonialsModalFunc
              (setModalContent ⟨some ("b.png", "Bea"), some "Bea", some "fine work"⟩ m)
        ∧ (setModalContent ⟨some ("b.png", "Bea"), some "Bea", some "fine work"⟩
            m).imgSrc = "b.png"
        ∧ (setModalContent ⟨some ("b.png", "Bea"), some "Bea", some "fine work"⟩
            m).containerActive = m.containerActive) :=
  modal_last_write_wins demoModal
    ⟨some ("a.png", "Abe"), some "Abe", some "great"⟩
    ⟨some ("b.png", "Bea"), some "Bea", some "fine work"⟩
    "b.png" "Bea" "Bea" "fine work" rfl rfl rfl

/-- The modal operations the page offers: opening by clicking a
testimonial item, the close button click, the overlay click, and the
Escape key, which calls testimonialsModalFunc only while the container
carries the class active (line 180). -/
inductive ModalOp where
  | clickItem (item : TItem)
  | closeBtn
  | overlayClick
  | escapeKey
deriving Repr

/-- Dispatch of one modal operation to its handler (lines 151 to 183). -/
def modalStep (s : ModalState) (op : ModalOp) : ModalState :=
  match op with
  | .clickItem item => testimonialClick item s
  | .closeBtn => testimonialsModalFunc s
  | .overlayClick => testimonialsModalFunc s
  | .escapeKey => if s.containerActive then testimonialsModalFunc s else s

/-- Run a sequence of modal operations. -/
def modalRun (s : ModalState) (ops : List ModalOp) : ModalState :=
  ops.foldl modalStep s

/-- The three visibility flags agree. -/
def modalFlagsEqual (s : ModalState) : Prop :=
  s.containerActive = s.overlayActive ∧ s.overlayActive = s.noScroll

/-- Each single modal operation preserves agreement of the container,
overlay and body flags, since every handler routes through the one
three-way toggle testimonialsModalFunc. -/
theorem modalStep_preserves_equal (s : ModalState) (op : ModalOp)
    (h : modalFlagsEqual s) : modalFlagsEqual (modalStep s op) := by
  obtain ⟨h1, h2⟩ := h
  cases op with
  | clickItem item =>
    have hf := setModalContent_flags item s
    constructor
    · show (!(setModalContent item s).containerActive)
        = (!(setModalContent item s).overlayActive)
      rw [hf.1, hf.2.1, h1]
    · show (!(setModalContent item s).overlayActive)
        = (!(setModalContent item s).noScroll)
      rw [hf.2.1, hf.2.2, h2]
  | closeBtn =>
    show (!s.containerActive) = (!s.overlayActive)
      ∧ (!s.overlayActive) = (!s.noScroll)
    rw [h1, h2]
    exact ⟨rfl, rfl⟩
  | overlayClick =>
    show (!s.containerActive) = (!s.overlayActive)
      ∧ (!s.overlayActive) = (!s.noScroll)
    rw [h1, h2]
    exact ⟨rfl, rfl⟩
  | escapeKey =>
    cases hcase : s.containerActive with
    | true =>
      have hstep : modalStep s ModalOp.escapeKey = testimonialsModalFunc s := by
        simp [modalStep, hcase]
      rw [hstep]
      show (!s.containerActive) = (!s.overlayActive)
        ∧ (!s.overlayActive) = (!s.noScroll)
      rw [h1, h2]
      exact ⟨rfl, rfl⟩
    | false =>
      have hstep : modalStep s ModalOp.escapeKey = s := by
        simp [modalStep, hcase]
      rw [hstep]
      exact ⟨h1, h2⟩

/-- C10: every modal operation toggles the container class, the overlay
class and the body no-scroll class together through the single toggle
testimonialsModalFunc, so when the three flags agree initially they
agree after any sequence of modal operations. -/
theorem modal_flags_invariant (s : ModalState) (ops : List ModalOp)
    (h : modalFlagsEqual s) : modalFlagsEqual (modalRun s ops) := by
  induction ops generalizing s with
  | nil => exact h
  | cons op rest ih => exact ih (modalStep s op) (modalStep_preserves_equal s op h)

/-- Witness for modal_flags_invariant: from the closed demo state, an
open on an item, an Escape close and an overlay click keep the three
flags equal. -/
theorem modal_flags_invariant_witness :
    modalFlagsEqual (modalRun demoModal
      [ModalOp.clickItem ⟨some ("a.png", "Abe"), some "Abe", some "great"⟩,
       ModalOp.escapeKey, ModalOp.overlayClick]) :=
  modal_flags_invariant demoModal
    [ModalOp.clickItem ⟨some ("a.png", "Abe"), some "Abe", some "great"⟩,
     ModalOp.escapeKey, ModalOp.overlayClick] ⟨rfl, rfl⟩

/-! ## Theme Controller (script.js lines 87 to 118) -/

/-- The theme state: the data-theme attribute on the document element
and the value stored under the key theme in localStorage, absent when
nothing was ever stored. -/
structure ThemeState where
  attr : String
  stored : Option String
deriving DecidableEq, Repr

/-- The load-time initialization (lines 91 and 92): the attribute is
set to the stored value, defaulting to dark when absent; the stored
value itself is not written at load. -/
def themeLoad (stored : Option String) : ThemeState :=
  { attr := stored.getD "dark", stored := stored }

/-- The theme toggle click handler (lines 109 to 117): reads the
current attribute, flips dark to light and anything else to dark,
writes the result to the attribute and to storage. -/
def themeToggleClick (s : ThemeState) : ThemeState :=
  let theme := if s.attr = "dark" then "light" else "dark"
  { attr := theme, stored := some theme }

/-- C8 as stated is refuted here: on a first load with no stored
preference the attribute defaults to dark and storage stays empty;
toggling twice returns the attribute to dark but leaves a stored
preference where before the first toggle there was none, so the
persisted value does not return to the value it had. -/
theorem theme_double_toggle_counterexample :
    (themeLoad none).stored = none
    ∧ (themeToggleClick (themeToggleClick (themeLoad none))).attr
        = (themeLoad none).attr
    ∧ (themeToggleClick (themeToggleClick (themeLoad none))).stored
        ≠ (themeLoad none).stored := by
  refine ⟨rfl, rfl, ?_⟩
  decide

/-- C8 amended: from any state whose attribute is dark or light and
whose stored preference is present and equal to the attribute, which is
exactly the situation after any earlier toggle or a load with a stored
two-valued preference, toggling twice restores both the attribute and
the stored value; when nothing was stored, only the attribute returns
to its prior value and a stored copy of it is created. -/
theorem theme_double_toggle (s : ThemeState)
    (h1 : s.attr = "dark" ∨ s.attr = "light")
    (h2 : s.stored = some s.attr) :
    themeToggleClick (themeToggleClick s) = s := by
  rcases h1 with h | h <;>
    · have hs : s = ⟨s.attr, s.stored⟩ := rfl
      rw [hs, h2, h]
      decide

/-- Witness for theme_double_toggle at the concrete in-sync state with
attribute light. -/
theorem theme_double_toggle_witness :
    themeToggleClick (themeToggleClick ⟨"light", some "light"⟩)
      = (⟨"light", some "light"⟩ : ThemeState) :=
  theme_double_toggle ⟨"light", some "light"⟩ (Or.inr rfl) rfl

/-! ## Contact Form Controller (script.js lines 265 to 341) -/

/-- A data-form-input element: whether it carries the required
attribute, its current value, whether the value meets its non-required
format constraints such as the email type, and the presence of the
class has-value. The validity notion mirrors the native constraint
validation API the script calls through form.checkValidity: a required
field with an empty value is invalid, otherwise validity is its format
constraint. -/
structure FormField where
  required : Bool
  value : String
  constraintOk : Bool
  hasValue : Bool
deriving DecidableEq, Repr

/-- Native single-field constraint validation: valueMissing when a
required field is empty, else the format constraint. -/
def fieldValid (f : FormField) : Bool :=
  if f.required && (f.value = "") then false else f.constraintOk

/-- The DOM state the form controller reads and writes: the inputs, the
disabled attribute of the data-form-btn element and its innerHTML. -/
structure FormState where
  fields : List FormField
  btnDisabled : Bool
  btnHtml : String
deriving DecidableEq, Repr

/-- form.checkValidity: every field satisfies its constraints. -/
def checkValidity (s : FormState) : Bool :=
  s.fields.all fieldValid

/-- validateForm (lines 272 to 278): removes the disabled attribute
when the form is valid and sets it otherwise. -/
def validateForm (s : FormState) : FormState :=
  if checkValidity s then { s with btnDisabled := false }
  else { s with btnDisabled := true }

/-- The debounce wrapper state (lines 26 to 36): whether a deferred
call is pending and the time it is due, in milliseconds. -/
structure DebounceState where
  pending : Bool
  deadline : Nat
deriving DecidableEq, Repr

/-- An input event at time now reschedules the deferred call: the
previous timeout is cleared and a new one is set wait milliseconds
ahead. -/
def debounceEvent (now wait : Nat) (_d : DebounceState) : DebounceState :=
  { pending := true, deadline := now + wait }

/-- Letting time pass to now fires the deferred call exactly when one
is pending and due; the Boolean reports whether it fired. -/
def debounceElapse (now : Nat) (d : DebounceState) : Bool × DebounceState :=
  if d.pending && (d.deadline ≤ now : Bool) then (true, { d with pending := false })
  else (false, d)

/-- One input event at time t with the debounced validateForm of line
282 (wait 300), followed by quiet time up to tq: when the deadline has
passed the deferred validateForm runs on the current form state. -/
def inputEventThenQuiet (t tq : Nat) (s : FormState) (d : DebounceState) :
    FormState × DebounceState :=
  let d1 := debounceEvent t 300 d
  match debounceElapse tq d1 with
  | (true, d2) => (validateForm s, d2)
  | (false, d2) => (s, d2)

/-- The button innerHTML written while the simulated send is running
(line 305). -/
def sendingHtml : String := "<i class=\"fas fa-spinner fa-spin\"></i> Sending..."

/-- The button innerHTML written when the simulated send resolves
(line 314). -/
def sentHtml : String := "<i class=\"fas fa-check\"></i> Sent!"

/-- The synchronous prefix of the submit handler on a valid form
(lines 301 to 306): sets the disabled attribute and the sending
markup. The pre-submission innerHTML is captured by the handler as
originalText before this write. -/
def submitStart (s : FormState) : FormState :=
  { s with btnDisabled := true, btnHtml := sendingHtml }

/-- The continuation after the 2000 ms simulated latency (line 314):
the sent markup. -/
def submitAfterLatency (s : FormState) : FormState :=
  { s with btnHtml := sentHtml }

/-- form.reset clears every input to its default empty value. -/
def formReset (s : FormState) : FormState :=
  { s with fields := s.fields.map (fun f => { f with value := "" }) }

/-- The continuation after the further 2000 ms reset delay (lines 318
to 324): resets the form, restores the captured original innerHTML and
strips the class has-value from every input. The disabled attribute is
not touched here. -/
def submitAfterResetDelay (originalText : String) (s : FormState) : FormState :=
  let s1 := formReset s
  { s1 with btnHtml := originalText,
            fields := s1.fields.map (fun f => { f with hasValue := false }) }

/-- The whole successful submission cycle of the handler at lines 295
to 341: blocked on an invalid form, otherwise the three stages in
order with originalText captured from the pre-submission state. -/
def submitSuccessCycle (s : FormState) : FormState :=
  if checkValidity s then
    submitAfterResetDelay s.btnHtml (submitAfterLatency (submitStart s))
  else s

/-- A concrete valid form state with an enabled submit button. -/
def demoForm : FormState :=
  { fields := [⟨true, "hello", true, true⟩, ⟨true, "hi@x.io", true, true⟩],
    btnDisabled := false,
    btnHtml := "Send Message" }

/-- A concrete invalid form state: the first required field is empty. -/
def demoFormInvalid : FormState :=
  { fields := [⟨true, "", true, false⟩, ⟨true, "hi@x.io", true, true⟩],
    btnDisabled := false,
    btnHtml := "Send Message" }

/-- C7: once the debounce quiet period of an input event has elapsed,
the deferred validateForm has run and the disabled attribute equals the
failure of native validation: in particular any empty required field
forces disabled, and the button is enabled exactly when every field
satisfies its constraints; independently, submitting an invalid form
leaves the state unchanged. -/
theorem validation_gate_spec (t tq : Nat) (s : FormState) (d : DebounceState)
    (hq : t + 300 ≤ tq) :
    (inputEventThenQuiet t tq s d).1.btnDisabled = !(checkValidity s)
    ∧ ((∃ f ∈ s.fields, f.required = true ∧ f.value = "") →
        (inputEventThenQuiet t tq s d).1.btnDisabled = true)
    ∧ ((inputEventThenQuiet t tq s d).1.btnDisabled = false
        ↔ s.fields.all fieldValid = true)
    ∧ (checkValidity s = false → submitSuccessCycle s = s) := by
  have hfire : debounceElapse tq (debounceEvent t 300 d)
      = (true, { pending := false, deadline := t + 300 }) := by
    simp [debounceElapse, debounceEvent, hq]
  have hrun : (inputEventThenQuiet t tq s d).1 = validateForm s := by
    simp [inputEventThenQuiet, hfire]
  have hdis : (inputEventThenQuiet t tq s d).1.btnDisabled = !(checkValidity s) := by
    rw [hrun]
    unfold validateForm
    cases hc : checkValidity s
    · rw [if_neg (by simp [hc])]
      simp
    · rw [if_pos (by simp [hc])]
      simp
  refine ⟨hdis, ?_, ?_, fun hinv => ?_⟩
  · rintro ⟨f, hf, hreq, hval⟩
    rw [hdis]
    have hfv : fieldValid f = false := by
      simp [fieldValid, hreq, hval]
    have : checkValidity s = false := by
      unfold checkValidity
      rw [List.all_eq_false]
      exact ⟨f, hf, by simp [hfv]⟩
    simp [this]
  · rw [hdis]
    unfold checkValidity
    cases hall : s.fields.all fieldValid <;> simp
  · unfold submitSuccessCycle
    rw [if_neg (by simp [hinv])]

/-- Witness for validation_gate_spec: an input event at time 0 with
quiet elapse to 400 on the concrete invalid form yields a disabled
button, and its premises all hold at this input. -/
theorem validation_gate_spec_witness :
    (inputEventThenQuiet 0 400 demoFormInvalid ⟨false, 0⟩).1.btnDisabled
        = !(checkValidity demoFormInvalid)
    ∧ ((∃ f ∈ demoFormInvalid.fields, f.required = true ∧ f.value = "") →
        (inputEventThenQuiet 0 400 demoFormInvalid ⟨false, 0⟩).1.btnDisabled = true)
    ∧ ((inputEventThenQuiet 0 400 demoFormInvalid ⟨false, 0⟩).1.btnDisabled = false
        ↔ demoFormInvalid.fields.all fieldValid = true)
    ∧ (checkValidity demoFormInvalid = false →
        submitSuccessCycle demoFormInvalid = demoFormInvalid) :=
  validation_gate_spec 0 400 demoFormInvalid ⟨false, 0⟩ (by decide)

/-- C5 as stated is refuted here: on the concrete valid form whose
button is enabled before submission, the full successful cycle restores
the original button markup but leaves the disabled attribute set, since
the success continuation at lines 318 to 324 never removes it; only the
error path at line 337 does. The pre-submission enabled state is
therefore not restored. -/
theorem submit_cycle_counterexample :
    checkValidity demoForm = true
    ∧ demoForm.btnDisabled = false
    ∧ (submitSuccessCycle demoForm).btnHtml = demoForm.btnHtml
    ∧ (submitSuccessCycle demoForm).btnDisabled = true := by
  decide

/-- C5 amended: a valid submission shows the sending markup with the
button disabled, then the sent markup, and after the reset delay clears
every field, strips the class has-value and restores the original
markup, while the button remains disabled rather than regaining its
pre-submission enabled state. -/
theorem submit_cycle_spec (s : FormState) (h : checkValidity s = true) :
    (submitStart s).btnHtml = sendingHtml
    ∧ (submitStart s).btnDisabled = true
    ∧ (submitAfterLatency (submitStart s)).btnHtml = sentHtml
    ∧ (submitSuccessCycle s).btnHtml = s.btnHtml
    ∧ (∀ f ∈ (submitSuccessCycle s).fields, f.value = "" ∧ f.hasValue = false)
    ∧ (submitSuccessCycle s).btnDisabled = true := by
  have hcycle : submitSuccessCycle s
      = submitAfterResetDelay s.btnHtml (submitAfterLatency (submitStart s)) := by
    unfold submitSuccessCycle
    rw [if_pos (by simp [h])]
  refine ⟨rfl, rfl, rfl, by rw [hcycle]; rfl, ?_, by rw [hcycle]; rfl⟩
  intro f hf
  rw [hcycle] at hf
  simp only [submitAfterResetDelay, formReset, submitAfterLatency, submitStart,
    List.map_map, List.mem_map] at hf
  obtain ⟨g, _, rfl⟩ := hf
  exact ⟨rfl, rfl⟩

/-- Witness for submit_cycle_spec at the concrete valid form. -/
theorem submit_cycle_spec_witness :
    (submitStart demoForm).btnHtml = sendingHtml
    ∧ (submitStart demoForm).btnDisabled = true
    ∧ (submitAfterLatency (submitStart demoForm)).btnHtml = sentHtml
    ∧ (submitSuccessCycle demoForm).btnHtml = demoForm.btnHtml
    ∧ (∀ f ∈ (submitSuccessCycle demoForm).fields,
        f.value = "" ∧ f.hasValue = false)
    ∧ (submitSuccessCycle demoForm).btnDisabled = true :=
  submit_cycle_spec demoForm (by decide)

/-! ## Missing-element safety across the script

The DOM queries at the top of each section return null or an empty
NodeList for absent markup. A thrown TypeError can only come from a
property access on such a null. Each top-level statement and each
handler body is walked below over a record saying which queried
elements the markup provides; an access on a possibly null element is
an explicit dereference in Except, while guarded accesses and optional
chaining never dereference null. -/

/-- Which of the queried single elements the markup provides. NodeList
results (testimonial items, select items, filter buttons, filter
items, form inputs, navigation links, pages) are lists and iterating
an empty list is always safe, so only their emptiness matters and they
need no presence flag. -/
structure Presence where
  sidebar : Bool
  sidebarBtn : Bool
  themeToggle : Bool
  modalContainer : Bool
  modalCloseBtn : Bool
  overlay : Bool
  modalImg : Bool
  modalTitle : Bool
  modalText : Bool
  select : Bool
  selectValue : Bool
  form : Bool
  formBtn : Bool
  header : Bool
  scrollTopBtn : Bool
deriving DecidableEq, Repr

/-- A property access on a queried element: null when absent. -/
def jsAccess (present : Bool) (name : String) : Except String Unit :=
  if present then Except.ok () else Except.error (name ++ " is null")

/-- Optional chaining: a question mark access on null short-circuits to
undefined and never throws. -/
def jsOptAccess (_present : Bool) : Except String Unit :=
  Except.ok ()

/-- The top-level statements of the script in order. Queries store null
silently; document, documentElement and body always exist; every
listener registration on a possibly absent element is either inside a
presence guard (sidebar block at line 62, theme block at line 108,
mobile menu block at line 633, typing block at line 579, preloader
block at line 670) or written with optional chaining (modal close at
lines 175 and 176, select at line 196, form at line 295, scroll top at
line 451); NodeList forEach registrations iterate possibly empty lists;
the indexing of filterBtns at line 234 yields undefined without
throwing; initializePage only calls navigateToPage, a total function
over the lists. -/
def scriptTopLevel (p : Presence) : Except String Unit := do
  jsAccess true "document.documentElement"
  if p.themeToggle then jsAccess p.themeToggle "themeToggle" else pure ()
  if p.sidebar && p.sidebarBtn then jsAccess p.sidebarBtn "sidebarBtn" else pure ()
  jsOptAccess p.modalCloseBtn
  jsOptAccess p.overlay
  jsOptAccess p.select
  jsOptAccess p.form
  jsOptAccess p.scrollTopBtn
  jsAccess true "document.body"
  pure ()

/-- The sidebar button click handler (lines 64 to 70), registered only
when both sidebar and its button exist, so its accesses hit non-null
elements. -/
def sidebarBtnClickHandler (p : Presence) : Except String Unit :=
  if p.sidebar && p.sidebarBtn then do
    jsAccess p.sidebar "sidebar"
    jsAccess p.sidebarBtn "sidebarBtn"
  else pure ()

/-- The theme toggle click handler (lines 109 to 117), registered only
when the toggle exists; its body touches documentElement, storage and
the guarded icon lookup. -/
def themeToggleClickHandler (p : Presence) : Except String Unit :=
  if p.themeToggle then jsAccess true "document.documentElement" else pure ()

/-- The testimonial item click handler (lines 152 to 171): the three
copies are guarded on both the modal field and the item sub-element,
and testimonialsModalFunc uses optional chaining throughout. -/
def testimonialClickHandler (p : Presence) : Except String Unit := do
  if p.modalImg then jsAccess p.modalImg "modalImg" else pure ()
  if p.modalTitle then jsAccess p.modalTitle "modalTitle" else pure ()
  if p.modalText then jsAccess p.modalText "modalText" else pure ()
  jsOptAccess p.modalContainer
  jsOptAccess p.overlay
  jsOptAccess p.modalCloseBtn

/-- The modal close, overlay click and Escape handlers (lines 175 to
183): optional chaining only. -/
def modalCloseHandler (p : Presence) : Except String Unit := do
  jsOptAccess p.modalContainer
  jsOptAccess p.overlay
  jsOptAccess p.modalCloseBtn

/-- The dropdown select-item click handler (lines 221 to 230): the
data-select-value write is guarded at line 224, but line 228 passes the
select element to elementToggleFunc, whose body reads elem.classList
with no guard, a TypeError when the select wrapper is absent while a
select item exists and is clicked. -/
def selectItemClickHandler (p : Presence) : Except String Unit := do
  if p.selectValue then jsAccess p.selectValue "selectValue" else pure ()
  jsAccess p.select "select"

/-- The desktop filter button click handler (lines 237 to 250): the
data-select-value write is guarded, the last clicked button is accessed
through optional chaining and the clicked button itself exists. -/
def filterBtnClickHandler (p : Presence) : Except String Unit := do
  if p.selectValue then jsAccess p.selectValue "selectValue" else pure ()
  jsOptAccess true

/-- validateForm (lines 272 to 278): optional chaining on both the form
and the button. -/
def validateFormHandler (p : Presence) : Except String Unit := do
  jsOptAccess p.form
  jsOptAccess p.formBtn

/-- The submit handler (lines 295 to 341): registered through optional
chaining on the form, so the form exists in its body; every button
access is inside an if formBtn guard or optional chaining. -/
def submitHandler (p : Presence) : Except String Unit :=
  if p.form then do
    jsAccess p.form "form"
    jsOptAccess p.formBtn
  else pure ()

/-- The scroll handlers (lines 423 to 446): optional chaining on the
header and the scroll-to-top button. -/
def scrollHandlers (p : Presence) : Except String Unit := do
  jsOptAccess p.header
  jsOptAccess p.scrollTopBtn

/-- A markup variant providing every element except the data-select
wrapper, while select items still exist. -/
def noSelectPresence : Presence :=
  { sidebar := true, sidebarBtn := true, themeToggle := true,
    modalContainer := true, modalCloseBtn := true, overlay := true,
    modalImg := true, modalTitle := true, modalText := true,
    select := false, selectValue := true, form := true, formBtn := true,
    header := true, scrollTopBtn := true }

/-- C9 as stated is refuted here: with the data-select wrapper absent,
the top-level script still completes, but clicking a select item runs
elementToggleFunc on the null select element and throws, so one missing
element does cause an exception in the file. -/
theorem missing_select_counterexample :
    scriptTopLevel noSelectPresence = Except.ok ()
    ∧ selectItemClickHandler noSelectPresence = Except.error "select is null" := by
  exact ⟨rfl, rfl⟩

/-- C9 amended: for every combination of absent elements the top-level
script runs to completion, and every handler tolerates the absence of
its targets, with the single exception of the dropdown select-item
click handler: it succeeds exactly when the data-select wrapper is
present, since line 228 dereferences it without a guard. -/
theorem missing_element_safety (p : Presence) :
    scriptTopLevel p = Except.ok ()
    ∧ sidebarBtnClickHandler p = Except.ok ()
    ∧ themeToggleClickHandler p = Except.ok ()
    ∧ testimonialClickHandler p = Except.ok ()
    ∧ modalCloseHandler p = Except.ok ()
    ∧ filterBtnClickHandler p = Except.ok ()
    ∧ validateFormHandler p = Except.ok ()
    ∧ submitHandler p = Except.ok ()
    ∧ scrollHandlers p = Except.ok ()
    ∧ (selectItemClickHandler p = Except.ok () ↔ p.select = true) := by
  obtain ⟨sb, sbb, tt, mc, mcb, ov, mi, mt, mx, se, sv, fo, fb, he, st⟩ := p
  refine ⟨?_, ?_, ?_, ?_, rfl, ?_, rfl, ?_, rfl, ?_⟩
  · cases tt <;> cases sb <;> cases sbb <;> rfl
  · cases sb <;> cases sbb <;> rfl
  · cases tt <;> rfl
  · cases mi <;> cases mt <;> cases mx <;> rfl
  · cases sv <;> rfl
  · cases fo <;> rfl
  · cases se <;> cases sv <;>
      simp [selectItemClickHandler, jsAccess, jsOptAccess, Bind.bind, Except.bind,
        Pure.pure, Except.pure]

end Portfolio
